import Mathlib

/-! WisBlock environmental datalogger: sensor port schemas and sensor helper.

A shallow embedding of

* `lib/PortSchema/src/SensorPortSchema.h`: the `sensorData` record, the
  `sensorPortSchema` class and the eight schema constants;
* `lib/SensorHelper/src/SensorHelper.cpp`: `initSensors` and `getSensorData`.

Conventions: `uint8_t` and `uint32_t` members are natural numbers, `float`
members are exact rationals, the global selection flags are an explicit state
record, and every call into a sensor driver is represented by the value it
returns.
-/

namespace WisBlock

/-! ## SensorPortSchema.h -/

/-- One reading of `struct sensorData`: a value and its validity flag. -/
structure Reading (α : Type) where
  value : α
  is_valid : Bool
deriving DecidableEq

/-- The `location` member of `struct sensorData`. -/
structure LocationReading where
  latitude : ℚ
  longitude : ℚ
  is_valid : Bool
deriving DecidableEq

/-- The `current_A` member of `struct sensorData`. -/
structure CurrentReading where
  value : ℚ
  is_valid : Bool
  ADCval : ℚ
deriving DecidableEq

/-- The record `struct sensorData`: data from the sensors and their validity. -/
structure sensorData where
  battery_mv : Reading ℚ
  temperature : Reading ℚ
  humidity : Reading ℚ
  pressure : Reading Nat
  gas_resist : Reading Nat
  location : LocationReading
  current_A : CurrentReading
deriving DecidableEq

/-- The value-initialised record of `sensorData data = {};`. -/
def sensorData.zero : sensorData :=
  { battery_mv := ⟨0, false⟩
    temperature := ⟨0, false⟩
    humidity := ⟨0, false⟩
    pressure := ⟨0, false⟩
    gas_resist := ⟨0, false⟩
    location := ⟨0, 0, false⟩
    current_A := ⟨0, false, 0⟩ }

/-- The data members of `class sensorPortSchema`. `n_bytes` and `n_values` are
`uint8_t`, `scale_factor` is a `float`. -/
structure sensorPortSchema where
  n_bytes : Nat
  n_values : Nat
  scale_factor : ℚ
  is_signed : Bool
deriving DecidableEq

/-- Schema of the timestamp, units: s. -/
def timestampSchema : sensorPortSchema :=
  { n_bytes := 4, n_values := 1, scale_factor := 1, is_signed := false }

/-- Schema of the battery voltage, units: mV. -/
def batteryVoltageSchema : sensorPortSchema :=
  { n_bytes := 2, n_values := 1, scale_factor := 1, is_signed := false }

/-- Schema of the temperature, units: degrees C; `pow(10.0, 2)`. -/
def temperatureSchema : sensorPortSchema :=
  { n_bytes := 2, n_values := 1, scale_factor := (10 : ℚ) ^ 2, is_signed := true }

/-- Schema of the relative humidity, units: %. The scale factor is
`(float)(UINT8_MAX / 100.0)`: the double 2.55 converted to `float`, that is the
single-precision number nearest to 255/100, `10695475 / 2 ^ 22`. -/
def relativeHumiditySchema : sensorPortSchema :=
  { n_bytes := 1, n_values := 1, scale_factor := (10695475 : ℚ) / 4194304, is_signed := false }

/-- Schema of the air pressure, units: Pa. -/
def airPressureSchema : sensorPortSchema :=
  { n_bytes := 4, n_values := 1, scale_factor := 1, is_signed := false }

/-- Schema of the gas resistance. -/
def gasResistanceSchema : sensorPortSchema :=
  { n_bytes := 4, n_values := 1, scale_factor := 1, is_signed := false }

/-- Schema of the location, units: degrees; latitude and longitude, `pow(10.0, 4)`. -/
def locationSchema : sensorPortSchema :=
  { n_bytes := 8, n_values := 2, scale_factor := (10 : ℚ) ^ 4, is_signed := true }

/-- Schema of the current sensor, units: A; `pow(10.0, 2)`. -/
def currentSensorSchema : sensorPortSchema :=
  { n_bytes := 6, n_values := 2, scale_factor := (10 : ℚ) ^ 2, is_signed := true }

/-- The eight schema constants of the header, in the order of their definition. -/
def schemaTable : List sensorPortSchema :=
  [timestampSchema, batteryVoltageSchema, temperatureSchema, relativeHumiditySchema,
   airPressureSchema, gasResistanceSchema, locationSchema, currentSensorSchema]

/-- Bytes of one sub-value: `n_bytes / n_values` (the payload length is "assumed
to be split equally amongst n_values"). -/
def sensorPortSchema.bytesPerValue (s : sensorPortSchema) : Nat :=
  s.n_bytes / s.n_values

/-! ## SensorHelper.cpp -/

/-- Modelled from the spec: the declaration of `portSchema` is not among the
sources (the spec only names the port-schema field ordering); these are the
boolean members that `SensorHelper.cpp` reads through `port_settings->`. -/
structure portSchema where
  sendBatteryVoltage : Bool
  sendTemperature : Bool
  sendRelativeHumidity : Bool
  sendAirPressure : Bool
  sendGasResistance : Bool
  sendCurrentSensor : Bool
deriving DecidableEq

/-- Modelled from the spec: the declaration of `initRAK1906Sensors` is not among
the sources; `initSensors` aggregate-initialises it with four booleans, in this
order. -/
structure initRAK1906Sensors where
  temperature : Bool
  humidity : Bool
  pressure : Bool
  gas_resistance : Bool
deriving DecidableEq

/-- The global selection flags `USERAK1901` and `USERAK1906`. -/
structure SelectionFlags where
  USERAK1901 : Bool
  USERAK1906 : Bool
deriving DecidableEq

/-- Initial value of the globals: both `false`. -/
def SelectionFlags.initial : SelectionFlags := ⟨false, false⟩

/-- What the driver calls made by `initSensors` return. -/
structure InitOutcomes where
  /-- Result of `enviroSensor.init(&init_sensors)`. -/
  enviroInit : initRAK1906Sensors → Bool
  /-- Result of `tempHumiSensor.init()`. -/
  tempHumiInit : Bool

/-- What the driver calls made by `getSensorData` return. -/
structure SensorReadings where
  /-- Result of `batLvl.getSensorMV()`. -/
  batteryMV : ℚ
  /-- Result of `HSTS016LSensor.readCurrentAmp()`. -/
  currentAmp : ℚ
  /-- The member `HSTS016LSensor.ADCaverage`. -/
  ADCaverage : ℚ
  /-- Result of `enviroSensor.dataReady()`. -/
  enviroDataReady : Bool
  enviroTemperature : ℚ
  enviroHumidity : ℚ
  enviroPressure : Nat
  enviroGasResistance : Nat
  /-- Result of `tempHumiSensor.dataReady()`. -/
  tempHumiDataReady : Bool
  tempHumiTemperature : ℚ
  tempHumiHumidity : ℚ

/-- The condition guarding the RAK1906 / RAK1901 blocks of both functions. -/
def needsEnvironment (p : portSchema) : Bool :=
  p.sendTemperature || p.sendRelativeHumidity || p.sendAirPressure || p.sendGasResistance

/-- The function `initSensors(port_settings, useRAK1901, useRAK1906)`: returns
the result and the global flags it leaves behind. The previous flags are
overwritten unconditionally. The battery and current-sensor set-up calls
(`ADCInit`, the zero-current calibration and its delays) touch neither the flags
nor the result and leave no trace here. -/
def initSensors (hw : InitOutcomes) (port_settings : portSchema)
    (useRAK1901 useRAK1906 : Bool) (_old : SelectionFlags) : Bool × SelectionFlags :=
  let g : SelectionFlags :=
    if useRAK1901 && useRAK1906 then
      { USERAK1906 := useRAK1906, USERAK1901 := false }
    else
      { USERAK1901 := useRAK1901, USERAK1906 := useRAK1906 }
  if needsEnvironment port_settings then
    if g.USERAK1906 then
      let init_sensors : initRAK1906Sensors :=
        ⟨port_settings.sendTemperature, port_settings.sendRelativeHumidity,
         port_settings.sendAirPressure, port_settings.sendGasResistance⟩
      if !hw.enviroInit init_sensors then (false, g) else (true, g)
    else if g.USERAK1901 then
      if port_settings.sendAirPressure || port_settings.sendGasResistance then
        (false, g)
      else if port_settings.sendTemperature || port_settings.sendRelativeHumidity then
        if !hw.tempHumiInit then (false, g) else (true, g)
      else
        (true, g)
    else
      (false, g)
  else
    (true, g)

/-- The function `getSensorData(port_settings)`, reading the global flags. -/
def getSensorData (hw : SensorReadings) (port_settings : portSchema)
    (g : SelectionFlags) : sensorData :=
  let data := sensorData.zero
  let data :=
    if port_settings.sendBatteryVoltage then
      { data with battery_mv := ⟨hw.batteryMV, true⟩ }
    else data
  let data :=
    if port_settings.sendCurrentSensor then
      { data with current_A := ⟨hw.currentAmp, true, hw.ADCaverage⟩ }
    else data
  if needsEnvironment port_settings then
    if g.USERAK1906 then
      if hw.enviroDataReady then
        let data :=
          if port_settings.sendTemperature then
            { data with temperature := ⟨hw.enviroTemperature, true⟩ }
          else data
        let data :=
          if port_settings.sendRelativeHumidity then
            { data with humidity := ⟨hw.enviroHumidity, true⟩ }
          else data
        let data :=
          if port_settings.sendAirPressure then
            { data with pressure := ⟨hw.enviroPressure, true⟩ }
          else data
        let data :=
          if port_settings.sendGasResistance then
            { data with gas_resist := ⟨hw.enviroGasResistance, true⟩ }
          else data
        data
      else data
    else if g.USERAK1901 then
      if hw.tempHumiDataReady then
        let data :=
          if port_settings.sendTemperature then
            { data with temperature := ⟨hw.tempHumiTemperature, true⟩ }
          else data
        let data :=
          if port_settings.sendRelativeHumidity then
            { data with humidity := ⟨hw.tempHumiHumidity, true⟩ }
          else data
        data
      else data
    else data
  else data

/-! ## The codec behind `encodeData` / `decodeData`

The header only declares the overloads; their bodies (`PortSchema.cpp`) are not
among the sources. The definitions of this section follow the written design of
the codec. Where that text leaves a choice open ("round/truncate", "clamp or
encode"), the choice is a parameter and the theorems hold for every value of it.
-/

/-- Modelled from the spec: the five argument types of the `encodeData` /
`decodeData` overloads ("Readable Value": 32-bit signed integer, float,
8/16/32-bit unsigned integer). -/
inductive ReadableValue where
  | int (v : Int)
  | float (v : ℚ)
  | uint8 (v : Nat)
  | uint16 (v : Nat)
  | uint32 (v : Nat)
deriving DecidableEq

/-- Modelled from the spec: which overload of `decodeData` the caller uses, that
is the output type requested. -/
inductive ValueType where
  | int
  | float
  | uint8
  | uint16
  | uint32
deriving DecidableEq

/-- The type tag of a value. -/
def ReadableValue.type : ReadableValue → ValueType
  | .int _ => .int
  | .float _ => .float
  | .uint8 _ => .uint8
  | .uint16 _ => .uint16
  | .uint32 _ => .uint32

/-- The number a value stands for. -/
def ReadableValue.toRat : ReadableValue → ℚ
  | .int v => v
  | .float v => v
  | .uint8 v => v
  | .uint16 v => v
  | .uint32 v => v

/-- The value lies in the range of its C type. -/
def ReadableValue.WellTyped : ReadableValue → Prop
  | .int v => -(2 : Int) ^ 31 ≤ v ∧ v < (2 : Int) ^ 31
  | .float _ => True
  | .uint8 v => v < 2 ^ 8
  | .uint16 v => v < 2 ^ 16
  | .uint32 v => v < 2 ^ 32

instance (x : ReadableValue) : Decidable x.WellTyped :=
  match x with
  | .int _ => inferInstanceAs (Decidable (_ ∧ _))
  | .float _ => inferInstanceAs (Decidable True)
  | .uint8 _ => inferInstanceAs (Decidable (_ < _))
  | .uint16 _ => inferInstanceAs (Decidable (_ < _))
  | .uint32 _ => inferInstanceAs (Decidable (_ < _))

/-- Modelled from the spec: the float-to-integer step of the body of `encodeData`
is "round/truncate to the nearest representable integer", the rule being left
open; both rules are covered. -/
inductive Rounding where
  | truncate
  | nearest
deriving DecidableEq

/-- Modelled from the spec: an integer outside the field's range is to be made to
"clamp or encode into the signed/unsigned integer range implied by the field
width"; both behaviours are covered. -/
inductive Overflow where
  | clamp
  | wrap
deriving DecidableEq

/-- Modelled from the spec: conversion of a scaled float to an integer in the
body of `encodeData`: truncation toward zero (a C cast), or rounding to nearest
with ties away from zero (C `round`). -/
def toInteger : Rounding → ℚ → Int
  | .truncate, q => if 0 ≤ q then ⌊q⌋ else ⌈q⌉
  | .nearest, q => if 0 ≤ q then ⌊q + 1 / 2⌋ else ⌈q - 1 / 2⌉

/-- Modelled from the spec: the least integer of "the signed/unsigned integer
range implied by the field width" used by the body of `encodeData`, for `w`
bytes. -/
def fieldMin (w : Nat) (is_signed : Bool) : Int :=
  if is_signed then -((256 : Int) ^ w / 2) else 0

/-- Modelled from the spec: the greatest integer of "the signed/unsigned integer
range implied by the field width" used by the body of `encodeData`, for `w`
bytes. -/
def fieldMax (w : Nat) (is_signed : Bool) : Int :=
  if is_signed then (256 : Int) ^ w / 2 - 1 else (256 : Int) ^ w - 1

/-- Modelled from the spec: the "clamp or encode into the signed/unsigned integer
range implied by the field width" step of the body of `encodeData`. -/
def fitRange : Overflow → Nat → Bool → Int → Int
  | .wrap, _, _, n => n
  | .clamp, w, is_signed, n => max (fieldMin w is_signed) (min (fieldMax w is_signed) n)

/-- Modelled from the spec: the "truncate to the low-order bytes of that width"
step of the body of `encodeData`: the two's-complement pattern of the integer
over `w` bytes, as a natural number. -/
def lowOrderBytes (w : Nat) (n : Int) : Nat :=
  (n % (256 : Int) ^ w).toNat

/-- Modelled from the spec: the fixed byte order of the codec bodies, "big-endian,
most significant byte first": the `w` low-order bytes of `n`. -/
def toBytesBE : Nat → Nat → List Nat
  | 0, _ => []
  | w + 1, n => (n / 256 ^ w) % 256 :: toBytesBE w n

/-- Modelled from the spec: the reassembly of a big-endian byte sequence in the
body of `decodeData`. -/
def fromBytesBE (bs : List Nat) : Nat :=
  bs.foldl (fun acc b => acc * 256 + b) 0

/-- Modelled from the spec: the byte of the invalid sentinel used by the codec
bodies, `0x7F` for a signed schema and `0xFF` for an unsigned one. -/
def invalidByte (is_signed : Bool) : Nat :=
  if is_signed then 0x7F else 0xFF

/-- Modelled from the spec: the invalid sentinel written by the body of
`encodeData`; "the sentinel byte pattern repeats the same byte across all bytes
of the field". -/
def invalidBytes (w : Nat) (is_signed : Bool) : List Nat :=
  List.replicate w (invalidByte is_signed)

/-- Modelled from the spec: the invalid sentinel as the integer that the body of
`decodeData` compares with (`0x7F`, `0x7F7F`, `0x7F7F7F7F` signed; `0xFF`,
`0xFFFF`, `0xFFFFFFFF` unsigned). -/
def invalidValue (w : Nat) (is_signed : Bool) : Int :=
  (fromBytesBE (invalidBytes w is_signed) : Nat)

/-- A payload buffer `uint8_t *`: the byte at each index. -/
abbrev Buffer := Nat → Nat

/-- Modelled from the spec: the store of the encoded bytes in the body of
`encodeData`: writing starts at `offset` and disturbs no byte elsewhere. -/
def writeBytes (buf : Buffer) (offset : Nat) (bs : List Nat) : Buffer :=
  fun i => if offset ≤ i ∧ i < offset + bs.length then bs.getD (i - offset) 0 else buf i

/-- Modelled from the spec: the load in the body of `decodeData`: the `n` bytes
(`uint8_t`) starting at `offset`. -/
def readBytes (buf : Buffer) (offset n : Nat) : List Nat :=
  (List.range n).map fun i => buf (offset + i) % 256

/-- Modelled from the spec: the integer that the body of `encodeData` encodes for
a valid value: a float is multiplied by `scale_factor` and converted to an
integer; "only int values are encoded", an integer value is taken as it is. -/
def integerToEncode (r : Rounding) (s : sensorPortSchema) : ReadableValue → Int
  | .int v => v
  | .float v => toInteger r (v * s.scale_factor)
  | .uint8 v => v
  | .uint16 v => v
  | .uint32 v => v

/-- Modelled from the spec: the bytes that the body of `encodeData` produces for
one sub-value: the sentinel when `valid` is false (the value is ignored), the
big-endian integer otherwise. -/
def encodeBytes (r : Rounding) (o : Overflow) (s : sensorPortSchema)
    (sensor_data : ReadableValue) (valid : Bool) : List Nat :=
  let w := s.bytesPerValue
  if valid then
    toBytesBE w (lowOrderBytes w (fitRange o w s.is_signed (integerToEncode r s sensor_data)))
  else
    invalidBytes w s.is_signed

/-- Modelled from the spec: the body of `sensorPortSchema::encodeData` (all five
overloads), absent from the sources: writes the bytes of one sub-value at
`current_buffer_len` and returns the buffer and the number of bytes written. -/
def encodeData (r : Rounding) (o : Overflow) (s : sensorPortSchema)
    (sensor_data : ReadableValue) (valid : Bool) (payload_buffer : Buffer)
    (current_buffer_len : Nat) : Buffer × Nat :=
  let bytes := encodeBytes r o s sensor_data valid
  (writeBytes payload_buffer current_buffer_len bytes, bytes.length)

/-- What `decodeData` hands back: the two out-parameters and the return value. -/
structure Decoded where
  sensor_data : ReadableValue
  valid : Bool
  length : Nat
deriving DecidableEq

/-- Modelled from the spec: the reading of the reassembled bytes "as big-endian
signed or unsigned integer per schema" in the body of `decodeData`. -/
def signedValue (w : Nat) (is_signed : Bool) (raw : Nat) : Int :=
  if is_signed && decide (256 ^ w ≤ 2 * raw) then (raw : Int) - (256 : Int) ^ w else raw

/-- Modelled from the spec: the zero/default at which the body of `decodeData`
leaves the output of an invalid field. -/
def zeroValue : ValueType → ReadableValue
  | .int => .int 0
  | .float => .float 0
  | .uint8 => .uint8 0
  | .uint16 => .uint16 0
  | .uint32 => .uint32 0

/-- Modelled from the spec: the output step of the body of `decodeData`: a float
output is the integer divided by `scale_factor`, an integer output is the integer
narrowed to the requested type. -/
def narrowTo (t : ValueType) (scale_factor : ℚ) (n : Int) : ReadableValue :=
  match t with
  | .int => .int ((n + (2 : Int) ^ 31) % (2 : Int) ^ 32 - (2 : Int) ^ 31)
  | .float => .float ((n : ℚ) / scale_factor)
  | .uint8 => .uint8 (n % (2 : Int) ^ 8).toNat
  | .uint16 => .uint16 (n % (2 : Int) ^ 16).toNat
  | .uint32 => .uint32 (n % (2 : Int) ^ 32).toNat

/-- Modelled from the spec: what the body of `decodeData` makes of the bytes of
one sub-value: an exact match with the sentinel is invalid, any other pattern is
valid and converted to the requested type. -/
def decodeBytes (s : sensorPortSchema) (t : ValueType) (bytes : List Nat) : Decoded :=
  let w := s.bytesPerValue
  let n := signedValue w s.is_signed (fromBytesBE bytes)
  if n = invalidValue w s.is_signed then
    ⟨zeroValue t, false, bytes.length⟩
  else
    ⟨narrowTo t s.scale_factor n, true, bytes.length⟩

/-- Modelled from the spec: the body of `sensorPortSchema::decodeData` (all five
overloads, selected by `t`), absent from the sources: reads one sub-value at
`buff_pos` and returns the value, its validity and the number of bytes read. -/
def decodeData (s : sensorPortSchema) (t : ValueType) (buffer : Buffer)
    (buff_pos : Nat) : Decoded :=
  decodeBytes s t (readBytes buffer buff_pos s.bytesPerValue)

/-- The number that a valid value is encoded from: the scaled value of a float,
the value itself for the integer types. -/
def scaledValue (s : sensorPortSchema) : ReadableValue → ℚ
  | .float v => v * s.scale_factor
  | x => x.toRat

/-- The rational `q` lies in the integer range of the schema's sub-value field. -/
def InFieldRange (s : sensorPortSchema) (q : ℚ) : Prop :=
  (fieldMin s.bytesPerValue s.is_signed : ℚ) ≤ q ∧ q ≤ (fieldMax s.bytesPerValue s.is_signed : ℚ)

instance (s : sensorPortSchema) (q : ℚ) : Decidable (InFieldRange s q) :=
  inferInstanceAs (Decidable (_ ∧ _))

/-- The all-zero payload buffer. -/
def emptyBuffer : Buffer := fun _ => 0

end WisBlock

namespace WisBlock

/-! ## Bytes and integers -/

theorem toBytesBE_length (w n : Nat) : (toBytesBE w n).length = w := by
  induction w with
  | zero => rfl
  | succ w ih => simp [toBytesBE, ih]

theorem toBytesBE_lt (w n : Nat) : ∀ b ∈ toBytesBE w n, b < 256 := by
  induction w with
  | zero => simp [toBytesBE]
  | succ w ih =>
    intro b hb
    simp only [toBytesBE, List.mem_cons] at hb
    rcases hb with rfl | hb
    · exact Nat.mod_lt _ (by norm_num)
    · exact ih b hb

theorem foldl_bytes (bs : List Nat) (acc : Nat) :
    bs.foldl (fun a b => a * 256 + b) acc = acc * 256 ^ bs.length + fromBytesBE bs := by
  induction bs generalizing acc with
  | nil => simp [fromBytesBE]
  | cons b bs ih =>
    simp only [List.foldl_cons, List.length_cons, fromBytesBE]
    rw [ih, ih (0 * 256 + b)]
    ring

theorem fromBytesBE_cons (b : Nat) (bs : List Nat) :
    fromBytesBE (b :: bs) = b * 256 ^ bs.length + fromBytesBE bs := by
  have h := foldl_bytes bs (0 * 256 + b)
  simp only [Nat.zero_mul, Nat.zero_add] at h
  simpa [fromBytesBE] using h

theorem fromBytesBE_lt (bs : List Nat) (hbs : ∀ b ∈ bs, b < 256) :
    fromBytesBE bs < 256 ^ bs.length := by
  induction bs with
  | nil => simp [fromBytesBE]
  | cons b bs ih =>
    rw [fromBytesBE_cons, List.length_cons, pow_succ]
    have hb : b < 256 := hbs b (List.mem_cons_self _ _)
    have hrest := ih (fun c hc => hbs c (List.mem_cons_of_mem _ hc))
    nlinarith

theorem fromBytesBE_toBytesBE (w n : Nat) : fromBytesBE (toBytesBE w n) = n % 256 ^ w := by
  induction w with
  | zero => simp [toBytesBE, fromBytesBE, Nat.mod_one]
  | succ w ih =>
    rw [toBytesBE, fromBytesBE_cons, ih, toBytesBE_length, Nat.mod_pow_succ]
    ring

theorem toBytesBE_mod (w n : Nat) : toBytesBE w (n % 256 ^ w) = toBytesBE w n := by
  suffices h : ∀ v k : Nat, v ≤ k → toBytesBE v (n % 256 ^ k) = toBytesBE v n from h w w le_rfl
  intro v
  induction v with
  | zero => intro k _; rfl
  | succ v ih =>
    intro k hk
    rw [toBytesBE, toBytesBE, ih k (by omega)]
    congr 1
    obtain ⟨d, rfl⟩ : ∃ d, k = v + 1 + d := ⟨k - (v + 1), by omega⟩
    have hpow : 256 ^ (v + 1 + d) = 256 ^ v * (256 * 256 ^ d) := by ring
    rw [hpow, Nat.mod_mul_right_div_self, Nat.mod_mul_right_mod]

theorem toBytesBE_fromBytesBE (bs : List Nat) (hbs : ∀ b ∈ bs, b < 256) :
    toBytesBE bs.length (fromBytesBE bs) = bs := by
  induction bs with
  | nil => rfl
  | cons b bs ih =>
    have hb : b < 256 := hbs b (List.mem_cons_self _ _)
    have hrest : ∀ c ∈ bs, c < 256 := fun c hc => hbs c (List.mem_cons_of_mem _ hc)
    have hlt := fromBytesBE_lt bs hrest
    rw [List.length_cons, toBytesBE, fromBytesBE_cons]
    congr 1
    · rw [Nat.add_comm, Nat.add_mul_div_right _ _ (by positivity), Nat.div_eq_of_lt hlt,
        Nat.zero_add, Nat.mod_eq_of_lt hb]
    · rw [← toBytesBE_mod, Nat.add_comm, Nat.add_mul_mod_self_right, Nat.mod_eq_of_lt hlt, ih hrest]

theorem readBytes_writeBytes (buf : Buffer) (offset : Nat) (bs : List Nat)
    (hbs : ∀ b ∈ bs, b < 256) :
    readBytes (writeBytes buf offset bs) offset bs.length = bs := by
  apply List.ext_getElem
  · simp [readBytes]
  · intro i h1 h2
    have hb : bs[i] < 256 := hbs _ (List.getElem_mem _)
    simp [readBytes, writeBytes, h2, List.getD_eq_getElem, Nat.mod_eq_of_lt hb]

theorem writeBytes_outside (buf : Buffer) (offset : Nat) (bs : List Nat) (i : Nat)
    (hi : i < offset ∨ offset + bs.length ≤ i) : writeBytes buf offset bs i = buf i := by
  unfold writeBytes
  rw [if_neg]
  omega

end WisBlock

namespace WisBlock

/-! ## The sentinel, signedness and rounding -/

theorem invalidByte_lt (is_signed : Bool) : invalidByte is_signed < 256 := by
  cases is_signed <;> decide

theorem invalidBytes_length (w : Nat) (is_signed : Bool) :
    (invalidBytes w is_signed).length = w := by
  simp [invalidBytes]

theorem invalidBytes_lt (w : Nat) (is_signed : Bool) :
    ∀ b ∈ invalidBytes w is_signed, b < 256 := by
  intro b hb
  rw [invalidBytes, List.mem_replicate] at hb
  rw [hb.2]
  exact invalidByte_lt is_signed

theorem fromBytesBE_invalid_signed (w : Nat) :
    2 * fromBytesBE (invalidBytes w true) < 256 ^ w := by
  induction w with
  | zero => simp [invalidBytes, fromBytesBE]
  | succ w ih =>
    have hcons : invalidBytes (w + 1) true = 0x7F :: invalidBytes w true := by
      simp [invalidBytes, invalidByte, List.replicate_succ]
    rw [hcons, fromBytesBE_cons, invalidBytes_length, pow_succ]
    omega

theorem signedValue_invalid (w : Nat) (is_signed : Bool) :
    signedValue w is_signed (fromBytesBE (invalidBytes w is_signed)) = invalidValue w is_signed := by
  cases is_signed with
  | false => simp [signedValue, invalidValue]
  | true =>
    have h := fromBytesBE_invalid_signed w
    have hn : ¬ 256 ^ w ≤ 2 * fromBytesBE (invalidBytes w true) := by omega
    simp [signedValue, invalidValue, hn]

theorem signedValue_lowOrderBytes (w : Nat) (is_signed : Bool) (n : Int)
    (hlo : fieldMin w is_signed ≤ n) (hhi : n ≤ fieldMax w is_signed) :
    signedValue w is_signed (lowOrderBytes w n) = n := by
  have hcast : ((256 ^ w : Nat) : Int) = (256 : Int) ^ w := by push_cast; rfl
  have hpos : 0 < 256 ^ w := by positivity
  unfold signedValue lowOrderBytes
  unfold fieldMin at hlo
  unfold fieldMax at hhi
  rw [← hcast] at hlo hhi ⊢
  generalize 256 ^ w = P at *
  cases is_signed with
  | false =>
    simp only [Bool.false_eq_true, if_false] at hlo hhi
    rw [Int.emod_eq_of_lt hlo (by omega)]
    simp only [Bool.false_and, Bool.false_eq_true, if_false]
    omega
  | true =>
    simp only [if_true] at hlo hhi
    by_cases hn : 0 ≤ n
    · rw [Int.emod_eq_of_lt hn (by omega)]
      have hc : ¬ P ≤ 2 * n.toNat := by omega
      simp only [Bool.true_and, decide_eq_true_eq, hc, if_false]
      omega
    · have hmod : n % (P : Int) = n + P := by
        rw [← Int.add_mul_emod_self_left n P 1, Int.mul_one]
        exact Int.emod_eq_of_lt (by omega) (by omega)
      rw [hmod]
      have hc : P ≤ 2 * (n + (P : Int)).toNat := by omega
      simp only [Bool.true_and, decide_eq_true_eq, hc, if_true]
      omega

theorem fitRange_of_mem (o : Overflow) (w : Nat) (is_signed : Bool) (n : Int)
    (hlo : fieldMin w is_signed ≤ n) (hhi : n ≤ fieldMax w is_signed) :
    fitRange o w is_signed n = n := by
  cases o with
  | wrap => rfl
  | clamp => simp [fitRange, min_eq_right hhi, max_eq_right hlo]

theorem toInteger_intCast (r : Rounding) (k : Int) : toInteger r (k : ℚ) = k := by
  cases r with
  | truncate =>
    simp only [toInteger]
    split_ifs <;> simp
  | nearest =>
    simp only [toInteger]
    split_ifs
    · rw [Int.floor_eq_iff]
      constructor <;> linarith
    · rw [Int.ceil_eq_iff]
      constructor <;> linarith

theorem toInteger_sub_lt (r : Rounding) (q : ℚ) : |(toInteger r q : ℚ) - q| < 1 := by
  rw [abs_lt]
  cases r with
  | truncate =>
    simp only [toInteger]
    split_ifs
    · have h1 := Int.floor_le q
      have h2 := Int.lt_floor_add_one q
      constructor <;> linarith
    · have h1 := Int.le_ceil q
      have h2 := Int.ceil_lt_add_one q
      constructor <;> linarith
  | nearest =>
    simp only [toInteger]
    split_ifs
    · have h1 := Int.floor_le (q + 1 / 2)
      have h2 := Int.lt_floor_add_one (q + 1 / 2)
      constructor <;> linarith
    · have h1 := Int.le_ceil (q - 1 / 2)
      have h2 := Int.ceil_lt_add_one (q - 1 / 2)
      constructor <;> linarith

theorem toInteger_mem_range (r : Rounding) (q : ℚ) (lo hi : Int)
    (hlo : (lo : ℚ) ≤ q) (hhi : q ≤ (hi : ℚ)) :
    lo ≤ toInteger r q ∧ toInteger r q ≤ hi := by
  cases r with
  | truncate =>
    simp only [toInteger]
    split_ifs
    · refine ⟨Int.le_floor.2 hlo, ?_⟩
      have h1 := Int.floor_le q
      exact_mod_cast h1.trans hhi
    · refine ⟨?_, Int.ceil_le.2 hhi⟩
      have h1 := Int.le_ceil q
      exact_mod_cast hlo.trans h1
  | nearest =>
    simp only [toInteger]
    split_ifs
    · refine ⟨Int.le_floor.2 (by linarith), ?_⟩
      have h1 : ⌊q + 1 / 2⌋ < hi + 1 := Int.floor_lt.2 (by push_cast; linarith)
      omega
    · refine ⟨?_, Int.ceil_le.2 (by linarith)⟩
      have h1 : lo - 1 < ⌈q - 1 / 2⌉ := Int.lt_ceil.2 (by push_cast; linarith)
      omega

end WisBlock

namespace WisBlock

/-! ## Encoding followed by decoding -/

theorem encodeBytes_length (r : Rounding) (o : Overflow) (s : sensorPortSchema)
    (x : ReadableValue) (valid : Bool) :
    (encodeBytes r o s x valid).length = s.bytesPerValue := by
  cases valid <;> simp [encodeBytes, toBytesBE_length, invalidBytes_length]

theorem encodeBytes_lt (r : Rounding) (o : Overflow) (s : sensorPortSchema)
    (x : ReadableValue) (valid : Bool) : ∀ b ∈ encodeBytes r o s x valid, b < 256 := by
  cases valid
  · simpa [encodeBytes] using invalidBytes_lt s.bytesPerValue s.is_signed
  · simpa [encodeBytes] using toBytesBE_lt s.bytesPerValue _

theorem readBytes_encodeData (r : Rounding) (o : Overflow) (s : sensorPortSchema)
    (x : ReadableValue) (valid : Bool) (buf : Buffer) (offset : Nat) :
    readBytes (encodeData r o s x valid buf offset).1 offset s.bytesPerValue
      = encodeBytes r o s x valid := by
  have h := readBytes_writeBytes buf offset _ (encodeBytes_lt r o s x valid)
  rw [encodeBytes_length] at h
  exact h

theorem decodeData_encodeData (r : Rounding) (o : Overflow) (s : sensorPortSchema)
    (x : ReadableValue) (valid : Bool) (t : ValueType) (buf : Buffer) (offset : Nat) :
    decodeData s t (encodeData r o s x valid buf offset).1 offset
      = decodeBytes s t (encodeBytes r o s x valid) := by
  unfold decodeData
  rw [readBytes_encodeData]

theorem decodeBytes_invalid (s : sensorPortSchema) (t : ValueType) :
    decodeBytes s t (invalidBytes s.bytesPerValue s.is_signed)
      = ⟨zeroValue t, false, s.bytesPerValue⟩ := by
  simp [decodeBytes, signedValue_invalid, invalidBytes_length]

theorem integerToEncode_mem_range (r : Rounding) (s : sensorPortSchema) (x : ReadableValue)
    (hrange : InFieldRange s (scaledValue s x)) :
    fieldMin s.bytesPerValue s.is_signed ≤ integerToEncode r s x ∧
      integerToEncode r s x ≤ fieldMax s.bytesPerValue s.is_signed := by
  obtain ⟨hlo, hhi⟩ := hrange
  cases x with
  | float v => exact toInteger_mem_range r _ _ _ hlo hhi
  | int v =>
    simp only [scaledValue, ReadableValue.toRat] at hlo hhi
    exact ⟨by exact_mod_cast hlo, by exact_mod_cast hhi⟩
  | uint8 v =>
    simp only [scaledValue, ReadableValue.toRat] at hlo hhi
    exact ⟨by exact_mod_cast hlo, by exact_mod_cast hhi⟩
  | uint16 v =>
    simp only [scaledValue, ReadableValue.toRat] at hlo hhi
    exact ⟨by exact_mod_cast hlo, by exact_mod_cast hhi⟩
  | uint32 v =>
    simp only [scaledValue, ReadableValue.toRat] at hlo hhi
    exact ⟨by exact_mod_cast hlo, by exact_mod_cast hhi⟩

theorem integerToEncode_eq_toInteger (r : Rounding) (s : sensorPortSchema)
    (x : ReadableValue) : integerToEncode r s x = toInteger r (scaledValue s x) := by
  cases x with
  | float v => rfl
  | int v =>
    simp only [integerToEncode, scaledValue, ReadableValue.toRat]
    exact (toInteger_intCast r v).symm
  | uint8 v =>
    simp only [integerToEncode, scaledValue, ReadableValue.toRat]
    exact (toInteger_intCast r (v : Int)).symm
  | uint16 v =>
    simp only [integerToEncode, scaledValue, ReadableValue.toRat]
    exact (toInteger_intCast r (v : Int)).symm
  | uint32 v =>
    simp only [integerToEncode, scaledValue, ReadableValue.toRat]
    exact (toInteger_intCast r (v : Int)).symm

theorem signedValue_encodeBytes (r : Rounding) (o : Overflow) (s : sensorPortSchema)
    (x : ReadableValue) (hrange : InFieldRange s (scaledValue s x)) :
    signedValue s.bytesPerValue s.is_signed (fromBytesBE (encodeBytes r o s x true))
      = integerToEncode r s x := by
  obtain ⟨hlo, hhi⟩ := integerToEncode_mem_range r s x hrange
  have hlt : lowOrderBytes s.bytesPerValue (integerToEncode r s x) < 256 ^ s.bytesPerValue := by
    unfold lowOrderBytes
    have hcast : ((256 ^ s.bytesPerValue : Nat) : Int) = (256 : Int) ^ s.bytesPerValue := by
      push_cast; rfl
    have hpos : (0 : Int) < (256 : Int) ^ s.bytesPerValue := by positivity
    have h1 := Int.emod_lt_of_pos (integerToEncode r s x) hpos
    have h2 := Int.emod_nonneg (integerToEncode r s x) hpos.ne'
    omega
  simp only [encodeBytes, if_true]
  rw [fitRange_of_mem o _ _ _ hlo hhi, fromBytesBE_toBytesBE, Nat.mod_eq_of_lt hlt,
    signedValue_lowOrderBytes _ _ _ hlo hhi]

theorem decodeBytes_encodeBytes (r : Rounding) (o : Overflow) (s : sensorPortSchema)
    (x : ReadableValue) (t : ValueType) (hrange : InFieldRange s (scaledValue s x)) :
    decodeBytes s t (encodeBytes r o s x true)
      = (if integerToEncode r s x = invalidValue s.bytesPerValue s.is_signed then
           ⟨zeroValue t, false, s.bytesPerValue⟩
         else ⟨narrowTo t s.scale_factor (integerToEncode r s x), true, s.bytesPerValue⟩) := by
  unfold decodeBytes
  simp only [signedValue_encodeBytes r o s x hrange, encodeBytes_length]

theorem encodeBytes_eq_invalid_iff (r : Rounding) (o : Overflow) (s : sensorPortSchema)
    (x : ReadableValue) (hrange : InFieldRange s (scaledValue s x)) :
    encodeBytes r o s x true = invalidBytes s.bytesPerValue s.is_signed ↔
      integerToEncode r s x = invalidValue s.bytesPerValue s.is_signed := by
  constructor
  · intro h
    rw [← signedValue_encodeBytes r o s x hrange, h, signedValue_invalid]
  · intro h
    obtain ⟨hlo, hhi⟩ := integerToEncode_mem_range r s x hrange
    simp only [encodeBytes, if_true]
    rw [fitRange_of_mem o _ _ _ hlo hhi, h]
    have hl := invalidBytes_length s.bytesPerValue s.is_signed
    have hinv := toBytesBE_fromBytesBE _ (invalidBytes_lt s.bytesPerValue s.is_signed)
    rw [hl] at hinv
    have hlt := fromBytesBE_lt _ (invalidBytes_lt s.bytesPerValue s.is_signed)
    rw [hl] at hlt
    have hcast : ((256 ^ s.bytesPerValue : Nat) : Int) = (256 : Int) ^ s.bytesPerValue := by
      push_cast; rfl
    have hlow : lowOrderBytes s.bytesPerValue (invalidValue s.bytesPerValue s.is_signed)
        = fromBytesBE (invalidBytes s.bytesPerValue s.is_signed) := by
      unfold lowOrderBytes invalidValue
      rw [← hcast, ← Int.natCast_mod, Int.toNat_natCast]
      exact Nat.mod_eq_of_lt hlt
    rw [hlow, hinv]

end WisBlock

namespace WisBlock

/-! ## The schema table -/

/-- C5: every one of the eight schemas of the header has `n_values > 0`, an
`n_bytes` evenly divisible by `n_values`, and a width per sub-value
`n_bytes / n_values` between 1 and 4 bytes, so that `n_values` steps of that width
add up to exactly `n_bytes`. -/
theorem schemaTable_invariant (s : sensorPortSchema) (hs : s ∈ schemaTable) :
    0 < s.n_values ∧ s.n_bytes % s.n_values = 0 ∧
      1 ≤ s.n_bytes / s.n_values ∧ s.n_bytes / s.n_values ≤ 4 ∧
      s.n_values * (s.n_bytes / s.n_values) = s.n_bytes := by
  simp only [schemaTable, List.mem_cons, List.mem_singleton, List.not_mem_nil, or_false] at hs
  rcases hs with rfl | rfl | rfl | rfl | rfl | rfl | rfl | rfl <;> decide

/-- C5, at the location schema: 8 bytes shared by 2 values of 4 bytes. -/
theorem schemaTable_invariant_witness :
    locationSchema ∈ schemaTable ∧
      (0 < locationSchema.n_values ∧ locationSchema.n_bytes % locationSchema.n_values = 0 ∧
        1 ≤ locationSchema.n_bytes / locationSchema.n_values ∧
        locationSchema.n_bytes / locationSchema.n_values ≤ 4 ∧
        locationSchema.n_values * (locationSchema.n_bytes / locationSchema.n_values)
          = locationSchema.n_bytes) :=
  ⟨by simp [schemaTable], schemaTable_invariant locationSchema (by simp [schemaTable])⟩

/-- C6 as stated fails: the sub-values of `currentSensorSchema` (6 bytes, 2 values)
are 3 bytes wide, which is none of 1, 2 and 4. -/
theorem currentSensorSchema_width_not_1_2_4 :
    currentSensorSchema ∈ schemaTable ∧
      currentSensorSchema.n_bytes / currentSensorSchema.n_values = 3 ∧
      ¬ (currentSensorSchema.n_bytes / currentSensorSchema.n_values = 1 ∨
         currentSensorSchema.n_bytes / currentSensorSchema.n_values = 2 ∨
         currentSensorSchema.n_bytes / currentSensorSchema.n_values = 4) :=
  ⟨by simp [schemaTable], by decide, by decide⟩

/-- C6, amended: the width per sub-value of every schema of the header is 1, 2, 3
or 4 bytes; it is 3 bytes exactly for `currentSensorSchema`, and 1, 2 or 4 bytes
for each of the other seven schemas. -/
theorem schemaTable_widths (s : sensorPortSchema) (hs : s ∈ schemaTable) :
    (s.n_bytes / s.n_values = 1 ∨ s.n_bytes / s.n_values = 2 ∨
      s.n_bytes / s.n_values = 3 ∨ s.n_bytes / s.n_values = 4) ∧
    (s.n_bytes / s.n_values = 3 ↔ s = currentSensorSchema) := by
  simp only [schemaTable, List.mem_cons, List.mem_singleton, List.not_mem_nil, or_false] at hs
  rcases hs with rfl | rfl | rfl | rfl | rfl | rfl | rfl | rfl <;>
    refine ⟨by decide, ?_⟩ <;> decide!

/-- C6 amended, at the relative-humidity schema: one byte per value. -/
theorem schemaTable_widths_witness :
    relativeHumiditySchema ∈ schemaTable ∧
      ((relativeHumiditySchema.n_bytes / relativeHumiditySchema.n_values = 1 ∨
        relativeHumiditySchema.n_bytes / relativeHumiditySchema.n_values = 2 ∨
        relativeHumiditySchema.n_bytes / relativeHumiditySchema.n_values = 3 ∨
        relativeHumiditySchema.n_bytes / relativeHumiditySchema.n_values = 4) ∧
      (relativeHumiditySchema.n_bytes / relativeHumiditySchema.n_values = 3 ↔
        relativeHumiditySchema = currentSensorSchema)) :=
  ⟨by simp [schemaTable], schemaTable_widths relativeHumiditySchema (by simp [schemaTable])⟩

/-! ## initSensors and getSensorData -/

/-- C8: whatever the port settings, the arguments, the outcome of the hardware
initialisation calls and the previous flags, after `initSensors` the global flags
are `USERAK1906 = useRAK1906` and `USERAK1901 = (useRAK1901 and not useRAK1906)`;
they are never both true, and when both sensors are requested the RAK1906 is the
one selected. -/
theorem initSensors_selection (hw : InitOutcomes) (port_settings : portSchema)
    (useRAK1901 useRAK1906 : Bool) (old : SelectionFlags) :
    (initSensors hw port_settings useRAK1901 useRAK1906 old).2.USERAK1906 = useRAK1906 ∧
    (initSensors hw port_settings useRAK1901 useRAK1906 old).2.USERAK1901
      = (useRAK1901 && !useRAK1906) ∧
    ¬ ((initSensors hw port_settings useRAK1901 useRAK1906 old).2.USERAK1901 = true ∧
       (initSensors hw port_settings useRAK1901 useRAK1906 old).2.USERAK1906 = true) ∧
    (initSensors hw port_settings true true old).2
      = { USERAK1901 := false, USERAK1906 := true } := by
  have key : ∀ u1 u6 : Bool,
      (initSensors hw port_settings u1 u6 old).2
        = (if u1 && u6 then { USERAK1906 := u6, USERAK1901 := false }
           else { USERAK1901 := u1, USERAK1906 := u6 } : SelectionFlags) := by
    intro u1 u6
    unfold initSensors
    simp only []
    repeat' split
    all_goals rfl
  rw [key useRAK1901 useRAK1906, key true true]
  cases useRAK1901 <;> cases useRAK1906 <;> simp

/-- C9: with `need` the disjunction of the four environmental send flags,
`initSensors` returns false exactly when `need` holds and (a) the RAK1906 is
selected (`useRAK1906`) and `enviroSensor.init` fails, or (b) only the RAK1901 is
selected (`useRAK1901` without `useRAK1906`) and air pressure or gas resistance
is requested, or (c) only the RAK1901 is selected, neither pressure nor gas is
requested and `tempHumiSensor.init` fails, or (d) neither sensor is selected; in
particular it returns true whenever `need` is false, whatever flags are passed. -/
theorem initSensors_false_iff (hw : InitOutcomes) (port_settings : portSchema)
    (useRAK1901 useRAK1906 : Bool) (old : SelectionFlags) :
    ((initSensors hw port_settings useRAK1901 useRAK1906 old).1 = false ↔
      (port_settings.sendTemperature || port_settings.sendRelativeHumidity ||
        port_settings.sendAirPressure || port_settings.sendGasResistance) = true ∧
      ((useRAK1906 = true ∧
          hw.enviroInit ⟨port_settings.sendTemperature, port_settings.sendRelativeHumidity,
            port_settings.sendAirPressure, port_settings.sendGasResistance⟩ = false) ∨
       (useRAK1901 = true ∧ useRAK1906 = false ∧
          (port_settings.sendAirPressure || port_settings.sendGasResistance) = true) ∨
       (useRAK1901 = true ∧ useRAK1906 = false ∧
          port_settings.sendAirPressure = false ∧ port_settings.sendGasResistance = false ∧
          hw.tempHumiInit = false) ∨
       (useRAK1901 = false ∧ useRAK1906 = false))) ∧
    ((port_settings.sendTemperature || port_settings.sendRelativeHumidity ||
        port_settings.sendAirPressure || port_settings.sendGasResistance) = false →
      (initSensors hw port_settings useRAK1901 useRAK1906 old).1 = true) := by
  obtain ⟨bat, t, h, p, gas, cur⟩ := port_settings
  obtain ⟨einit, thinit⟩ := hw
  cases useRAK1901 <;> cases useRAK1906 <;> cases t <;> cases h <;> cases p <;> cases gas <;>
    cases thinit <;> simp [initSensors, needsEnvironment] <;>
    cases einit _ <;> simp

/-- C9, at three calls: a port sending temperature with the RAK1906 requested and
its `init` failing returns false (case a); the same port with only the RAK1901
requested and its `init` succeeding does not return false; a port that needs
nothing from the environmental sensors returns true with no sensor requested. -/
theorem initSensors_false_iff_witness :
    (initSensors ⟨fun _ => false, true⟩ ⟨true, true, false, false, false, false⟩
        true true SelectionFlags.initial).1 = false ∧
    ¬ (initSensors ⟨fun _ => false, true⟩ ⟨true, true, false, false, false, false⟩
        true false SelectionFlags.initial).1 = false ∧
    ((false || false || false || false) = false ∧
      (initSensors ⟨fun _ => false, false⟩ ⟨true, false, false, false, false, true⟩
        false false SelectionFlags.initial).1 = true) :=
  ⟨(initSensors_false_iff ⟨fun _ => false, true⟩ ⟨true, true, false, false, false, false⟩
      true true SelectionFlags.initial).1.2 ⟨rfl, Or.inl ⟨rfl, rfl⟩⟩,
   fun hfalse =>
     absurd
       ((initSensors_false_iff ⟨fun _ => false, true⟩ ⟨true, true, false, false, false, false⟩
          true false SelectionFlags.initial).1.1 hfalse).2
       (by decide),
   rfl,
   (initSensors_false_iff ⟨fun _ => false, false⟩ ⟨true, false, false, false, false, true⟩
      false false SelectionFlags.initial).2 rfl⟩

/-- The readings taken from the RAK1906 or the RAK1901, field by field: the
environmental part of the record returned by `getSensorData`. -/
theorem getSensorData_fields (hw : SensorReadings) (port_settings : portSchema)
    (g : SelectionFlags) :
    (getSensorData hw port_settings g).battery_mv
      = (if port_settings.sendBatteryVoltage then ⟨hw.batteryMV, true⟩ else ⟨0, false⟩) ∧
    (getSensorData hw port_settings g).current_A
      = (if port_settings.sendCurrentSensor then ⟨hw.currentAmp, true, hw.ADCaverage⟩
         else ⟨0, false, 0⟩) ∧
    (getSensorData hw port_settings g).location = ⟨0, 0, false⟩ ∧
    (getSensorData hw port_settings g).temperature
      = (if port_settings.sendTemperature &&
            (if g.USERAK1906 then hw.enviroDataReady
             else (g.USERAK1901 && hw.tempHumiDataReady)) then
           ⟨if g.USERAK1906 then hw.enviroTemperature else hw.tempHumiTemperature, true⟩
         else ⟨0, false⟩) ∧
    (getSensorData hw port_settings g).humidity
      = (if port_settings.sendRelativeHumidity &&
            (if g.USERAK1906 then hw.enviroDataReady
             else (g.USERAK1901 && hw.tempHumiDataReady)) then
           ⟨if g.USERAK1906 then hw.enviroHumidity else hw.tempHumiHumidity, true⟩
         else ⟨0, false⟩) ∧
    (getSensorData hw port_settings g).pressure
      = (if port_settings.sendAirPressure && g.USERAK1906 && hw.enviroDataReady then
           ⟨hw.enviroPressure, true⟩
         else ⟨0, false⟩) ∧
    (getSensorData hw port_settings g).gas_resist
      = (if port_settings.sendGasResistance && g.USERAK1906 && hw.enviroDataReady then
           ⟨hw.enviroGasResistance, true⟩
         else ⟨0, false⟩) := by
  obtain ⟨bat, t, h, p, gas, cur⟩ := port_settings
  obtain ⟨u1, u6⟩ := g
  obtain ⟨mv, amp, adc, er, et, eh, ep, eg, tr, tt, th⟩ := hw
  cases bat <;> cases cur <;> cases t <;> cases h <;> cases p <;> cases gas <;>
    cases u1 <;> cases u6 <;> cases er <;> cases tr <;>
    exact ⟨rfl, rfl, rfl, rfl, rfl, rfl, rfl⟩

/-- C10: in the record returned by `getSensorData`, for every port settings,
flag state and sensor state: a reading is valid only if its send flag is set, is
zero when its send flag is not set, and is zero whenever it is not valid;
`battery_mv.is_valid = sendBatteryVoltage`
and `current_A.is_valid = sendCurrentSensor`; `pressure` and `gas_resist` are
valid only if `USERAK1906` is set and `enviroSensor.dataReady()`; `temperature`
and `humidity` are valid only if the selected sensor (the RAK1906 if set, else
the RAK1901) reports data ready; `location.is_valid` is always false. -/
theorem getSensorData_validity (hw : SensorReadings) (port_settings : portSchema)
    (g : SelectionFlags) :
    ((getSensorData hw port_settings g).battery_mv.is_valid = port_settings.sendBatteryVoltage ∧
     (getSensorData hw port_settings g).current_A.is_valid = port_settings.sendCurrentSensor ∧
     (getSensorData hw port_settings g).location.is_valid = false) ∧
    (((getSensorData hw port_settings g).temperature.is_valid = true →
        port_settings.sendTemperature = true) ∧
     ((getSensorData hw port_settings g).humidity.is_valid = true →
        port_settings.sendRelativeHumidity = true) ∧
     ((getSensorData hw port_settings g).pressure.is_valid = true →
        port_settings.sendAirPressure = true) ∧
     ((getSensorData hw port_settings g).gas_resist.is_valid = true →
        port_settings.sendGasResistance = true)) ∧
    ((port_settings.sendBatteryVoltage = false →
        (getSensorData hw port_settings g).battery_mv = ⟨0, false⟩) ∧
     (port_settings.sendCurrentSensor = false →
        (getSensorData hw port_settings g).current_A = ⟨0, false, 0⟩) ∧
     (port_settings.sendTemperature = false →
        (getSensorData hw port_settings g).temperature = ⟨0, false⟩) ∧
     (port_settings.sendRelativeHumidity = false →
        (getSensorData hw port_settings g).humidity = ⟨0, false⟩) ∧
     (port_settings.sendAirPressure = false →
        (getSensorData hw port_settings g).pressure = ⟨0, false⟩) ∧
     (port_settings.sendGasResistance = false →
        (getSensorData hw port_settings g).gas_resist = ⟨0, false⟩) ∧
     (getSensorData hw port_settings g).location = ⟨0, 0, false⟩) ∧
    (((getSensorData hw port_settings g).battery_mv.is_valid = false →
        (getSensorData hw port_settings g).battery_mv.value = 0) ∧
     ((getSensorData hw port_settings g).current_A.is_valid = false →
        (getSensorData hw port_settings g).current_A.value = 0 ∧
        (getSensorData hw port_settings g).current_A.ADCval = 0) ∧
     ((getSensorData hw port_settings g).temperature.is_valid = false →
        (getSensorData hw port_settings g).temperature.value = 0) ∧
     ((getSensorData hw port_settings g).humidity.is_valid = false →
        (getSensorData hw port_settings g).humidity.value = 0) ∧
     ((getSensorData hw port_settings g).pressure.is_valid = false →
        (getSensorData hw port_settings g).pressure.value = 0) ∧
     ((getSensorData hw port_settings g).gas_resist.is_valid = false →
        (getSensorData hw port_settings g).gas_resist.value = 0)) ∧
    (((getSensorData hw port_settings g).pressure.is_valid = true →
        g.USERAK1906 = true ∧ hw.enviroDataReady = true) ∧
     ((getSensorData hw port_settings g).gas_resist.is_valid = true →
        g.USERAK1906 = true ∧ hw.enviroDataReady = true)) ∧
    (((getSensorData hw port_settings g).temperature.is_valid = true →
        (if g.USERAK1906 then hw.enviroDataReady else hw.tempHumiDataReady) = true) ∧
     ((getSensorData hw port_settings g).humidity.is_valid = true →
        (if g.USERAK1906 then hw.enviroDataReady else hw.tempHumiDataReady) = true)) := by
  obtain ⟨hbat, hcur, hloc, htemp, hhum, hpress, hgas⟩ := getSensorData_fields hw port_settings g
  rw [hbat, hcur, hloc, htemp, hhum, hpress, hgas]
  clear hbat hcur hloc htemp hhum hpress hgas
  refine ⟨⟨?_, ?_, rfl⟩, ⟨?_, ?_, ?_, ?_⟩, ⟨?_, ?_, ?_, ?_, ?_, ?_, rfl⟩,
    ⟨?_, ?_, ?_, ?_, ?_, ?_⟩, ⟨?_, ?_⟩, ⟨?_, ?_⟩⟩ <;>
    split_ifs <;> simp_all

/-- C10, at a port sending temperature and pressure with only the RAK1901
selected and ready: the temperature is valid, so its send flag is set and the
RAK1901 is ready; the pressure is not valid. -/
theorem getSensorData_validity_witness :
    (getSensorData ⟨3700, 0, 0, false, 0, 0, 0, 0, true, 215 / 10, 40⟩
        ⟨true, true, false, true, false, false⟩ ⟨true, false⟩).temperature.is_valid = true ∧
    (true = true ∧ (if false then false else true) = true) ∧
    (getSensorData ⟨3700, 0, 0, false, 0, 0, 0, 0, true, 215 / 10, 40⟩
        ⟨true, true, false, true, false, false⟩ ⟨true, false⟩).pressure.is_valid = false :=
  ⟨rfl,
   ⟨(getSensorData_validity ⟨3700, 0, 0, false, 0, 0, 0, 0, true, 215 / 10, 40⟩
        ⟨true, true, false, true, false, false⟩ ⟨true, false⟩).2.1.1 rfl,
    (getSensorData_validity ⟨3700, 0, 0, false, 0, 0, 0, 0, true, 215 / 10, 40⟩
        ⟨true, true, false, true, false, false⟩ ⟨true, false⟩).2.2.2.2.2.1 rfl⟩,
   rfl⟩

/-! ## The codec contract -/

theorem schemaTable_scale_pos (s : sensorPortSchema) (hs : s ∈ schemaTable) :
    0 < s.scale_factor := by
  simp only [schemaTable, List.mem_cons, List.mem_singleton, List.not_mem_nil, or_false] at hs
  rcases hs with rfl | rfl | rfl | rfl | rfl | rfl | rfl | rfl <;>
    norm_num [timestampSchema, batteryVoltageSchema, temperatureSchema, relativeHumiditySchema,
      airPressureSchema, gasResistanceSchema, locationSchema, currentSensorSchema]

/-- C4: for every schema, value, validity flag, buffer and offset, `encodeData`
returns exactly `n_bytes / n_values` (the number of bytes it has written), and
`decodeData` on the same schema returns the same number as bytes consumed. -/
theorem width_determinism (r : Rounding) (o : Overflow) (s : sensorPortSchema)
    (x : ReadableValue) (valid : Bool) (buf : Buffer) (offset : Nat)
    (t : ValueType) (buffer : Buffer) (buff_pos : Nat) :
    (encodeData r o s x valid buf offset).2 = s.n_bytes / s.n_values ∧
    (decodeData s t buffer buff_pos).length = s.n_bytes / s.n_values ∧
    (decodeData s t buffer buff_pos).length = (encodeData r o s x valid buf offset).2 := by
  have henc : (encodeData r o s x valid buf offset).2 = s.n_bytes / s.n_values :=
    encodeBytes_length r o s x valid
  have hdec : (decodeData s t buffer buff_pos).length = s.n_bytes / s.n_values := by
    unfold decodeData decodeBytes
    simp only []
    split <;> simp [readBytes, sensorPortSchema.bytesPerValue]
  exact ⟨henc, hdec, hdec.trans henc.symm⟩

/-- C2: for every schema and every two input values, encoding with
`valid = false` writes the same buffer; the bytes written are the sentinel byte
(`0x7F` signed, `0xFF` unsigned) repeated over the sub-value width, and decoding
them yields `valid = false`. -/
theorem decode_encode_invalid (r : Rounding) (o : Overflow) (s : sensorPortSchema)
    (x y : ReadableValue) (t : ValueType) (buf : Buffer) (offset : Nat) :
    (decodeData s t (encodeData r o s x false buf offset).1 offset).valid = false ∧
    encodeData r o s x false buf offset = encodeData r o s y false buf offset ∧
    readBytes (encodeData r o s x false buf offset).1 offset (s.n_bytes / s.n_values)
      = List.replicate (s.n_bytes / s.n_values) (if s.is_signed then 0x7F else 0xFF) := by
  have hbytes : ∀ z, encodeBytes r o s z false = invalidBytes s.bytesPerValue s.is_signed := by
    intro z
    simp [encodeBytes]
  refine ⟨?_, ?_, ?_⟩
  · rw [decodeData_encodeData, hbytes, decodeBytes_invalid]
  · unfold encodeData
    rw [hbytes x, hbytes y]
  · have h := readBytes_encodeData r o s x false buf offset
    rw [hbytes] at h
    exact h

/-- C1 as stated fails, on `batteryVoltageSchema` (2 bytes, unsigned, scale 1):
65535 mV is within the field's range, yet its encoding is the sentinel `0xFFFF`
and decodes as invalid; 3700.5 mV is within range as well, yet does not decode
to exactly 3700.5 although the scale factor is 1. -/
theorem round_trip_fails_on_battery_voltage :
    batteryVoltageSchema ∈ schemaTable ∧
    batteryVoltageSchema.scale_factor = 1 ∧
    InFieldRange batteryVoltageSchema (65535 * batteryVoltageSchema.scale_factor) ∧
    (∀ (r : Rounding) (o : Overflow),
      (decodeData batteryVoltageSchema .float
        (encodeData r o batteryVoltageSchema (.float 65535) true emptyBuffer 0).1 0).valid
        = false) ∧
    InFieldRange batteryVoltageSchema (7401 / 2 * batteryVoltageSchema.scale_factor) ∧
    (∀ (r : Rounding) (o : Overflow),
      (decodeData batteryVoltageSchema .float
        (encodeData r o batteryVoltageSchema (.float (7401 / 2)) true emptyBuffer 0).1
          0).sensor_data ≠ .float (7401 / 2)) := by
  refine ⟨by simp [schemaTable], rfl, by decide!, ?_, by decide!, ?_⟩
  · intro r o
    cases r <;> cases o <;> decide!
  · intro r o
    cases r <;> cases o <;> decide!

/-- C1, amended: for every schema with a positive scale factor and every
well-typed value whose number to encode (`v * scale_factor` for a float, `v`
itself for an integer type) lies in the integer range of the sub-value field and
whose integer to encode is not the invalid sentinel of that field, decoding the
bytes written by `encodeData` with `valid = true` yields `valid = true` and a
value that differs from `v` by less than one quantization unit `1 / scale_factor`;
the value is exactly `v` whenever the number to encode is an integer. -/
theorem decode_encode_valid (r : Rounding) (o : Overflow) (s : sensorPortSchema)
    (x : ReadableValue) (buf : Buffer) (offset : Nat)
    (hscale : 0 < s.scale_factor) (hx : x.WellTyped)
    (hrange : InFieldRange s (scaledValue s x))
    (hsent : integerToEncode r s x ≠ invalidValue (s.n_bytes / s.n_values) s.is_signed) :
    (decodeData s x.type (encodeData r o s x true buf offset).1 offset).valid = true ∧
    |(decodeData s x.type (encodeData r o s x true buf offset).1 offset).sensor_data.toRat
        - x.toRat| < 1 / s.scale_factor ∧
    ((∃ k : Int, scaledValue s x = k) →
      (decodeData s x.type (encodeData r o s x true buf offset).1 offset).sensor_data = x) := by
  have hdec : decodeData s x.type (encodeData r o s x true buf offset).1 offset
      = ⟨narrowTo x.type s.scale_factor (integerToEncode r s x), true, s.bytesPerValue⟩ := by
    have hsent' : integerToEncode r s x ≠ invalidValue s.bytesPerValue s.is_signed := hsent
    rw [decodeData_encodeData, decodeBytes_encodeBytes r o s x _ hrange, if_neg hsent']
  rw [hdec]
  have hinv : (0 : ℚ) < 1 / s.scale_factor := by positivity
  cases x with
  | float v =>
    refine ⟨rfl, ?_, ?_⟩
    · simp only [ReadableValue.type, narrowTo, integerToEncode, ReadableValue.toRat]
      have h := toInteger_sub_lt r (v * s.scale_factor)
      have hrw : (toInteger r (v * s.scale_factor) : ℚ) / s.scale_factor - v
          = ((toInteger r (v * s.scale_factor) : ℚ) - v * s.scale_factor) / s.scale_factor := by
        field_simp
        ring
      rw [hrw, abs_div, abs_of_pos hscale]
      exact div_lt_div_of_pos_right h hscale
    · rintro ⟨k, hk⟩
      simp only [scaledValue] at hk
      simp only [ReadableValue.type, narrowTo, integerToEncode, hk, toInteger_intCast]
      rw [← hk]
      congr 1
      field_simp
  | int v =>
    have hv : narrowTo .int s.scale_factor v = .int v := by
      simp only [ReadableValue.WellTyped] at hx
      simp only [narrowTo]
      congr 1
      omega
    simp [ReadableValue.type, integerToEncode, hv, hscale]
  | uint8 v =>
    have hv : narrowTo .uint8 s.scale_factor (v : Int) = .uint8 v := by
      simp only [ReadableValue.WellTyped] at hx
      simp only [narrowTo]
      congr 1
      omega
    simp [ReadableValue.type, integerToEncode, hv, hscale]
  | uint16 v =>
    have hv : narrowTo .uint16 s.scale_factor (v : Int) = .uint16 v := by
      simp only [ReadableValue.WellTyped] at hx
      simp only [narrowTo]
      congr 1
      omega
    simp [ReadableValue.type, integerToEncode, hv, hscale]
  | uint32 v =>
    have hv : narrowTo .uint32 s.scale_factor (v : Int) = .uint32 v := by
      simp only [ReadableValue.WellTyped] at hx
      simp only [narrowTo]
      congr 1
      omega
    simp [ReadableValue.type, integerToEncode, hv, hscale]

/-- C1 amended, at the temperature schema: -12.345 degrees C is scaled to
-1234.5, encoded as an integer next to it, and decoded within 0.01 of the
input. -/
theorem decode_encode_valid_witness :
    0 < temperatureSchema.scale_factor ∧
    (ReadableValue.float (-2469 / 200)).WellTyped ∧
    InFieldRange temperatureSchema (scaledValue temperatureSchema (.float (-2469 / 200))) ∧
    integerToEncode .truncate temperatureSchema (.float (-2469 / 200))
      ≠ invalidValue (temperatureSchema.n_bytes / temperatureSchema.n_values)
          temperatureSchema.is_signed ∧
    ((decodeData temperatureSchema (ReadableValue.float (-2469 / 200)).type
        (encodeData .truncate .wrap temperatureSchema (.float (-2469 / 200)) true
          emptyBuffer 0).1 0).valid = true ∧
     |(decodeData temperatureSchema (ReadableValue.float (-2469 / 200)).type
        (encodeData .truncate .wrap temperatureSchema (.float (-2469 / 200)) true
          emptyBuffer 0).1 0).sensor_data.toRat - (ReadableValue.float (-2469 / 200)).toRat|
        < 1 / temperatureSchema.scale_factor ∧
     ((∃ k : Int, scaledValue temperatureSchema (.float (-2469 / 200)) = k) →
       (decodeData temperatureSchema (ReadableValue.float (-2469 / 200)).type
        (encodeData .truncate .wrap temperatureSchema (.float (-2469 / 200)) true
          emptyBuffer 0).1 0).sensor_data = .float (-2469 / 200))) :=
  ⟨by decide!, trivial, by decide!, by decide!,
   decode_encode_valid .truncate .wrap temperatureSchema (.float (-2469 / 200)) emptyBuffer 0
     (by decide!) trivial (by decide!) (by decide!)⟩

theorem humidity_100_scaled :
    scaledValue relativeHumiditySchema (.float 100) = 255 - 5 / 1048576 ∧
    (∀ o : Overflow, encodeBytes .truncate o relativeHumiditySchema (.float 100) true = [0xFE]) ∧
    (∀ o : Overflow, encodeBytes .nearest o relativeHumiditySchema (.float 100) true = [0xFF]) := by
  refine ⟨by decide!, ?_, ?_⟩ <;> intro o <;> cases o <;> decide!

/-- C3 as stated fails: the sentinel value lies inside the field's range, and a
valid value equal to it is written as the sentinel. On `timestampSchema`
(4 bytes, unsigned, scale 1) the valid 32-bit value 4294967295 is written as
`0xFF 0xFF 0xFF 0xFF` under every rule; on `relativeHumiditySchema` (1 byte,
unsigned) a valid humidity of 100 % is scaled to just below 255 and is written as
`0xFF` when the scaled value is rounded to nearest. -/
theorem sentinel_written_for_valid_value :
    (timestampSchema ∈ schemaTable ∧
      (ReadableValue.uint32 4294967295).WellTyped ∧
      InFieldRange timestampSchema (scaledValue timestampSchema (.uint32 4294967295)) ∧
      invalidBytes 4 false = [0xFF, 0xFF, 0xFF, 0xFF] ∧
      (∀ (r : Rounding) (o : Overflow),
        readBytes (encodeData r o timestampSchema (.uint32 4294967295) true emptyBuffer 0).1 0 4
          = [0xFF, 0xFF, 0xFF, 0xFF])) ∧
    (relativeHumiditySchema ∈ schemaTable ∧
      InFieldRange relativeHumiditySchema (100 * relativeHumiditySchema.scale_factor) ∧
      invalidBytes 1 false = [0xFF] ∧
      (∀ o : Overflow,
        readBytes (encodeData .nearest o relativeHumiditySchema (.float 100) true
          emptyBuffer 0).1 0 1 = [0xFF])) := by
  refine ⟨⟨by simp [schemaTable], by decide, by decide!, by decide, ?_⟩,
    ⟨by simp [schemaTable], by decide!, by decide, ?_⟩⟩
  · intro r o
    cases r <;> cases o <;> decide!
  · intro o
    cases o <;> decide!

/-- C3, amended: for every schema and every valid value whose number to encode
(`v * scale_factor` for a float, `v` for an integer type) lies in the range of the
sub-value field: if that number is at least one unit away from the sentinel value
of the field's width and signedness, the bytes written differ from the invalid
sentinel; if it is the sentinel value, the bytes written are the sentinel. The
sentinel value (`0x7F`, `0x7F7F`, `0x7F7F7F7F` signed; `0xFF`, `0xFFFF`,
`0xFFFFFFFF` unsigned) lies in the field's range for each of the eight schemas of
the header. For `relativeHumiditySchema` no humidity from 0 to 99.6 % is written
as `0xFF`. -/
theorem sentinel_exclusivity :
    (∀ (r : Rounding) (o : Overflow) (s : sensorPortSchema) (x : ReadableValue)
        (buf : Buffer) (offset : Nat), InFieldRange s (scaledValue s x) →
      (scaledValue s x ≤ (invalidValue (s.n_bytes / s.n_values) s.is_signed : ℚ) - 1 ∨
        (invalidValue (s.n_bytes / s.n_values) s.is_signed : ℚ) + 1 ≤ scaledValue s x) →
      readBytes (encodeData r o s x true buf offset).1 offset (s.n_bytes / s.n_values)
        ≠ invalidBytes (s.n_bytes / s.n_values) s.is_signed) ∧
    (∀ (r : Rounding) (o : Overflow) (s : sensorPortSchema) (x : ReadableValue)
        (buf : Buffer) (offset : Nat), InFieldRange s (scaledValue s x) →
      scaledValue s x = (invalidValue (s.n_bytes / s.n_values) s.is_signed : ℚ) →
      readBytes (encodeData r o s x true buf offset).1 offset (s.n_bytes / s.n_values)
        = invalidBytes (s.n_bytes / s.n_values) s.is_signed) ∧
    (∀ s ∈ schemaTable,
      InFieldRange s (invalidValue (s.n_bytes / s.n_values) s.is_signed : ℚ)) ∧
    (invalidValue 1 true = 0x7F ∧ invalidValue 2 true = 0x7F7F ∧
      invalidValue 4 true = 0x7F7F7F7F ∧ invalidValue 1 false = 0xFF ∧
      invalidValue 2 false = 0xFFFF ∧ invalidValue 4 false = 0xFFFFFFFF) ∧
    (∀ (r : Rounding) (o : Overflow) (h : ℚ) (buf : Buffer) (offset : Nat),
      0 ≤ h → h ≤ 996 / 10 →
      readBytes (encodeData r o relativeHumiditySchema (.float h) true buf offset).1 offset 1
        ≠ [0xFF]) := by
  have hiff : ∀ (r : Rounding) (o : Overflow) (s : sensorPortSchema) (x : ReadableValue)
      (buf : Buffer) (offset : Nat), InFieldRange s (scaledValue s x) →
      (readBytes (encodeData r o s x true buf offset).1 offset (s.n_bytes / s.n_values)
          = invalidBytes (s.n_bytes / s.n_values) s.is_signed ↔
        toInteger r (scaledValue s x) = invalidValue (s.n_bytes / s.n_values) s.is_signed) := by
    intro r o s x buf offset hrange
    have h := readBytes_encodeData r o s x true buf offset
    unfold sensorPortSchema.bytesPerValue at h
    rw [h, ← integerToEncode_eq_toInteger r s x]
    exact encodeBytes_eq_invalid_iff r o s x hrange
  have away : ∀ (r : Rounding) (o : Overflow) (s : sensorPortSchema) (x : ReadableValue)
      (buf : Buffer) (offset : Nat), InFieldRange s (scaledValue s x) →
      (scaledValue s x ≤ (invalidValue (s.n_bytes / s.n_values) s.is_signed : ℚ) - 1 ∨
        (invalidValue (s.n_bytes / s.n_values) s.is_signed : ℚ) + 1 ≤ scaledValue s x) →
      readBytes (encodeData r o s x true buf offset).1 offset (s.n_bytes / s.n_values)
        ≠ invalidBytes (s.n_bytes / s.n_values) s.is_signed := by
    intro r o s x buf offset hrange hfar
    rw [Ne, hiff r o s x buf offset hrange]
    obtain ⟨hlo, hhi⟩ := hrange
    rcases hfar with hbelow | habove
    · have h := (toInteger_mem_range r (scaledValue s x) _
        (invalidValue (s.n_bytes / s.n_values) s.is_signed - 1) hlo
        (by push_cast; exact hbelow)).2
      omega
    · have h := (toInteger_mem_range r (scaledValue s x)
        (invalidValue (s.n_bytes / s.n_values) s.is_signed + 1) _
        (by push_cast; exact habove) hhi).1
      omega
  refine ⟨away, ?_, ?_, by decide, ?_⟩
  · intro r o s x buf offset hrange hhit
    rw [hiff r o s x buf offset hrange, hhit, toInteger_intCast]
  · intro s hs
    simp only [schemaTable, List.mem_cons, List.mem_singleton, List.not_mem_nil, or_false] at hs
    rcases hs with rfl | rfl | rfl | rfl | rfl | rfl | rfl | rfl <;> decide!
  · intro r o h buf offset h0 h1
    have hscaled : scaledValue relativeHumiditySchema (.float h)
        = h * (10695475 / 4194304) := rfl
    have hmin : fieldMin relativeHumiditySchema.bytesPerValue relativeHumiditySchema.is_signed
        = 0 := by decide
    have hmax : fieldMax relativeHumiditySchema.bytesPerValue relativeHumiditySchema.is_signed
        = 255 := by decide
    have hw : relativeHumiditySchema.n_bytes / relativeHumiditySchema.n_values = 1 := by decide
    have hinvb : invalidBytes 1 relativeHumiditySchema.is_signed = [0xFF] := by decide
    have hinvv : invalidValue 1 relativeHumiditySchema.is_signed = 255 := by decide
    have hrange : InFieldRange relativeHumiditySchema
        (scaledValue relativeHumiditySchema (.float h)) := by
      rw [hscaled]
      unfold InFieldRange
      rw [hmin, hmax]
      constructor
      · push_cast; linarith
      · push_cast; linarith
    have hne := away r o relativeHumiditySchema (.float h) buf offset hrange
    rw [hw, hinvb, hinvv, hscaled] at hne
    exact hne (Or.inl (by push_cast; linarith))

/-- C3 amended, at two inputs: a humidity of 50 % is in range and more than one
unit below the sentinel value 255, so it is not written as `0xFF`; the 32-bit
value 4294967295 on `timestampSchema` is the sentinel value of its field and is
written as the sentinel. -/
theorem sentinel_exclusivity_witness :
    InFieldRange relativeHumiditySchema (scaledValue relativeHumiditySchema (.float 50)) ∧
    (scaledValue relativeHumiditySchema (.float 50)
        ≤ (invalidValue (relativeHumiditySchema.n_bytes / relativeHumiditySchema.n_values)
            relativeHumiditySchema.is_signed : ℚ) - 1) ∧
    readBytes (encodeData .truncate .clamp relativeHumiditySchema (.float 50) true
        emptyBuffer 0).1 0
        (relativeHumiditySchema.n_bytes / relativeHumiditySchema.n_values)
      ≠ invalidBytes (relativeHumiditySchema.n_bytes / relativeHumiditySchema.n_values)
          relativeHumiditySchema.is_signed ∧
    InFieldRange timestampSchema (scaledValue timestampSchema (.uint32 4294967295)) ∧
    scaledValue timestampSchema (.uint32 4294967295)
      = (invalidValue (timestampSchema.n_bytes / timestampSchema.n_values)
          timestampSchema.is_signed : ℚ) ∧
    readBytes (encodeData .truncate .clamp timestampSchema (.uint32 4294967295) true
        emptyBuffer 0).1 0 (timestampSchema.n_bytes / timestampSchema.n_values)
      = invalidBytes (timestampSchema.n_bytes / timestampSchema.n_values)
          timestampSchema.is_signed ∧
    relativeHumiditySchema ∈ schemaTable ∧
    InFieldRange relativeHumiditySchema
      (invalidValue (relativeHumiditySchema.n_bytes / relativeHumiditySchema.n_values)
        relativeHumiditySchema.is_signed : ℚ) ∧
    ((0 : ℚ) ≤ 50 ∧ (50 : ℚ) ≤ 996 / 10) ∧
    readBytes (encodeData .truncate .clamp relativeHumiditySchema (.float 50) true
        emptyBuffer 0).1 0 1 ≠ [0xFF] :=
  ⟨by decide!, by decide!,
   sentinel_exclusivity.1 .truncate .clamp relativeHumiditySchema (.float 50)
     emptyBuffer 0 (by decide!) (Or.inl (by decide!)),
   by decide!, by decide!,
   sentinel_exclusivity.2.1 .truncate .clamp timestampSchema (.uint32 4294967295)
     emptyBuffer 0 (by decide!) (by decide!),
   by simp [schemaTable],
   sentinel_exclusivity.2.2.1 relativeHumiditySchema (by simp [schemaTable]),
   ⟨by norm_num, by norm_num⟩,
   sentinel_exclusivity.2.2.2.2 .truncate .clamp 50 emptyBuffer 0 (by norm_num)
     (by norm_num)⟩

/-- C7: `temperatureSchema` is (`n_bytes` 2, `n_values` 1, `scale_factor` 100,
signed); encoding 23.45 with `valid = true` at offset 0 encodes the integer 2345,
written big-endian as `0x09 0x29`, and decoding those bytes gives 23.45 with
`valid = true`; encoding with `valid = false` writes `0x7F 0x7F`, and decoding
those bytes gives `valid = false`. -/
theorem temperature_scenario (r : Rounding) (o : Overflow) (buf : Buffer) (x : ReadableValue) :
    temperatureSchema = ⟨2, 1, 100, true⟩ ∧
    integerToEncode r temperatureSchema (.float (2345 / 100)) = 2345 ∧
    toBytesBE 2 2345 = [0x09, 0x29] ∧
    readBytes (encodeData r o temperatureSchema (.float (2345 / 100)) true buf 0).1 0 2
      = [0x09, 0x29] ∧
    decodeData temperatureSchema .float
        (encodeData r o temperatureSchema (.float (2345 / 100)) true buf 0).1 0
      = ⟨.float (2345 / 100), true, 2⟩ ∧
    readBytes (encodeData r o temperatureSchema x false buf 0).1 0 2 = [0x7F, 0x7F] ∧
    (decodeData temperatureSchema .float
        (encodeData r o temperatureSchema x false buf 0).1 0).valid = false := by
  have hvalid : encodeBytes r o temperatureSchema (.float (2345 / 100)) true = [0x09, 0x29] := by
    cases r <;> cases o <;> decide!
  have hinvalid : encodeBytes r o temperatureSchema x false = [0x7F, 0x7F] := by
    simp only [encodeBytes, Bool.false_eq_true, if_false]
    decide
  have hread := fun v => readBytes_encodeData r o temperatureSchema x v buf 0
  have hread' := readBytes_encodeData r o temperatureSchema (.float (2345 / 100)) true buf 0
  have hw : temperatureSchema.bytesPerValue = 2 := by decide
  rw [hw] at hread'
  have hreadf := hread false
  rw [hw] at hreadf
  refine ⟨by decide!, by cases r <;> decide!, by decide, ?_, ?_, ?_, ?_⟩
  · rw [hread', hvalid]
  · rw [decodeData_encodeData, hvalid]
    decide!
  · rw [hreadf, hinvalid]
  · rw [decodeData_encodeData, hinvalid]
    decide!

end WisBlock
